import Mathlib

/-!
Verification of the Emotionix backend (`app.py`).

The file shallowly embeds the request handlers of `app.py` as pure Lean
functions: the SQLAlchemy message store becomes an explicit list of records
threaded through each handler, the optional OpenAI call becomes an oracle
parameter, and Python strings become Lean `String`s (Python slices `s[:n]`
act on code points, like `List.take` on `String.data`).
-/

/-- A role/content pair, the shape of one element of `messages_for_api`
(app.py line 181): `{"role": m.role, "content": m.content}`. -/
structure RoleMsg where
  role : String
  content : String
deriving DecidableEq, Repr

/-- The `for m in messages_for_api: if m['role']=="system": m['content'] = system_text; break`
loop of app.py lines 188-191: replace the content of the first system-role
entry, leave everything else untouched. -/
def updateFirstSystem : List RoleMsg → String → List RoleMsg
  | [], _ => []
  | m :: rest, s =>
      if m.role == "system" then { m with content := s } :: rest
      else m :: updateFirstSystem rest s

/-- Message-sequence assembly of app.py lines 183-194: if no entry of the
fetched history has role "system", insert `{"role":"system","content":system_text}`
at index 0, otherwise rewrite the first system entry in place; then append
`{"role":"user","content":prompt}` at the end. -/
def assembleMessages (history : List RoleMsg) (system_text prompt : String) : List RoleMsg :=
  let base :=
    if history.any (fun m => m.role == "system") then updateFirstSystem history system_text
    else ⟨"system", system_text⟩ :: history
  base ++ [⟨"user", prompt⟩]

/-- Index of the first system-role entry of a history, mirroring the
first-match semantics of the loop at app.py lines 188-191. -/
def firstSysIdx : List RoleMsg → Option Nat
  | [] => none
  | m :: rest =>
      if m.role == "system" then some 0
      else (firstSysIdx rest).map (· + 1)

/-- Number of system-role entries in a message sequence. -/
def countSystem (l : List RoleMsg) : Nat :=
  l.countP (fun m => m.role == "system")

lemma updateFirstSystem_of_no_system (l : List RoleMsg) (s : String)
    (h : ∀ m ∈ l, m.role ≠ "system") : updateFirstSystem l s = l := by
  induction l with
  | nil => rfl
  | cons m rest ih =>
      have hm : m.role ≠ "system" := h m (by simp)
      simp only [updateFirstSystem, beq_iff_eq, hm, if_false]
      rw [ih (fun x hx => h x (by simp [hx]))]

lemma firstSysIdx_some_iff_any (l : List RoleMsg) :
    (firstSysIdx l).isSome = l.any (fun m => m.role == "system") := by
  induction l with
  | nil => rfl
  | cons m rest ih =>
      by_cases hm : m.role = "system"
      · simp [firstSysIdx, hm]
      · simp only [firstSysIdx, beq_iff_eq, hm, if_false, List.any_cons, Bool.false_or]
        rw [← ih]
        cases firstSysIdx rest <;> simp [hm]

lemma updateFirstSystem_eq_set (l : List RoleMsg) (s : String) (k : Nat)
    (h : firstSysIdx l = some k) :
    updateFirstSystem l s = l.set k ⟨"system", s⟩ := by
  induction l generalizing k with
  | nil => simp [firstSysIdx] at h
  | cons m rest ih =>
      by_cases hm : m.role = "system"
      · simp only [firstSysIdx, hm, beq_iff_eq, if_true] at h
        have hk : k = 0 := (Option.some_inj.mp h).symm
        subst hk
        simp only [updateFirstSystem, beq_iff_eq, hm, if_true, List.set]
      · simp only [firstSysIdx, beq_iff_eq, hm, if_false] at h
        cases hr : firstSysIdx rest with
        | none =>
            rw [hr] at h
            simp at h
        | some j =>
            rw [hr] at h
            simp only [Option.map_some'] at h
            have hk : j + 1 = k := Option.some_inj.mp h
            subst hk
            simp only [updateFirstSystem, beq_iff_eq, hm, if_false, List.set]
            rw [ih j hr]

lemma countSystem_updateFirstSystem (l : List RoleMsg) (s : String) :
    countSystem (updateFirstSystem l s) = countSystem l := by
  induction l with
  | nil => rfl
  | cons m rest ih =>
      by_cases hm : m.role = "system"
      · simp [updateFirstSystem, countSystem, hm, List.countP_cons]
      · simp only [updateFirstSystem, beq_iff_eq, hm, if_false]
        simp only [countSystem, List.countP_cons] at ih ⊢
        simp [ih]

lemma countSystem_append (l₁ l₂ : List RoleMsg) :
    countSystem (l₁ ++ l₂) = countSystem l₁ + countSystem l₂ := by
  simp [countSystem, List.countP_append]

/-- C1: for a history with zero system-role entries, the assembled sequence is
exactly the new system entry at position 0, followed by the history entries
unchanged and in order, with the new user utterance as the last element;
it contains exactly one system-role entry. -/
theorem assemble_no_system_prepends (history : List RoleMsg) (s p : String)
    (h : ∀ m ∈ history, m.role ≠ "system") :
    assembleMessages history s p = ⟨"system", s⟩ :: (history ++ [⟨"user", p⟩])
    ∧ countSystem (assembleMessages history s p) = 1
    ∧ (assembleMessages history s p).getLast? = some ⟨"user", p⟩ := by
  have hany : history.any (fun m => m.role == "system") = false := by
    simp only [List.any_eq_false, beq_iff_eq]
    exact h
  have heq : assembleMessages history s p = ⟨"system", s⟩ :: (history ++ [⟨"user", p⟩]) := by
    simp [assembleMessages, hany]
  refine ⟨heq, ?_, ?_⟩
  · rw [heq]
    simp only [countSystem, List.countP_cons, List.countP_append]
    have h1 : history.countP (fun m => m.role == "system") = 0 := by
      simp only [List.countP_eq_zero, beq_iff_eq]
      exact h
    simp [h1]
  · rw [heq, ← List.cons_append]
    exact List.getLast?_concat _

/-- C2: for a history whose first system-role entry sits at index `k`, the
assembled sequence replaces only that entry's content in place (index `k`
keeps its position, every other index is unchanged), inserts no additional
system entry, and appends the new user utterance last. -/
theorem assemble_with_system_replaces_first (history : List RoleMsg) (s p : String) (k : Nat)
    (h : firstSysIdx history = some k) :
    assembleMessages history s p = (history.set k ⟨"system", s⟩) ++ [⟨"user", p⟩]
    ∧ (history.set k ⟨"system", s⟩).length = history.length
    ∧ (∀ j, j ≠ k → (history.set k ⟨"system", s⟩)[j]? = history[j]?)
    ∧ countSystem (assembleMessages history s p) = countSystem history := by
  have hany : history.any (fun m => m.role == "system") = true := by
    rw [← firstSysIdx_some_iff_any, h]
    rfl
  have heq : assembleMessages history s p = (history.set k ⟨"system", s⟩) ++ [⟨"user", p⟩] := by
    simp only [assembleMessages, hany, if_true]
    rw [updateFirstSystem_eq_set history s k h]
  refine ⟨heq, by simp, fun j hj => List.getElem?_set_ne (fun hkj => hj hkj.symm), ?_⟩
  have heq' : assembleMessages history s p = updateFirstSystem history s ++ [⟨"user", p⟩] := by
    simp [assembleMessages, hany]
  rw [heq', countSystem_append, countSystem_updateFirstSystem]
  simp [countSystem]

/-- Concrete history with no system entry, for the C1 witness. -/
def histNoSys : List RoleMsg := [⟨"user", "hi"⟩, ⟨"assistant", "hello"⟩]

/-- Concrete history with two system entries (indices 1 and 2), for the C2
witness. -/
def histTwoSys : List RoleMsg := [⟨"user", "hi"⟩, ⟨"system", "old"⟩, ⟨"system", "old2"⟩]

/-- Witness for C1 on a concrete two-message history. -/
theorem assemble_no_system_prepends_witness :
    assembleMessages histNoSys "sys" "next"
      = ⟨"system", "sys"⟩ :: (histNoSys ++ [⟨"user", "next"⟩]) :=
  (assemble_no_system_prepends histNoSys "sys" "next" (by decide)).1

/-- Witness for C2 on a concrete history holding two system entries at
indices 1 and 2: only index 1 is rewritten, in place. -/
theorem assemble_with_system_replaces_first_witness :
    assembleMessages histTwoSys "new" "next"
      = (histTwoSys.set 1 ⟨"system", "new"⟩) ++ [⟨"user", "next"⟩] :=
  (assemble_with_system_replaces_first histTwoSys "new" "next" 1 (by decide)).1

/-- Python truthiness-based defaulting `v or d` for an optional string field:
an absent value and the empty string are both falsy and fall back to the
default (unlike `Option.getD`, which keeps an empty string). -/
def pyOr (v : Option String) (d : String) : String :=
  match v with
  | none => d
  | some s => if s == "" then d else s

/-- Python slice `s[:n]`, which acts on code points. -/
def strTake (s : String) (n : Nat) : String := ⟨s.data.take n⟩

/-- Python `str.strip()`: drop whitespace from both ends. -/
def pyStrip (s : String) : String :=
  ⟨((s.data.dropWhile Char.isWhitespace).reverse.dropWhile Char.isWhitespace).reverse⟩

/-- The fallback generator of app.py lines 59-68 (`fallback_generate`).
Its parameters are exactly `(prompt, ai_mode="emotionix", board=None,
grade=None)`; it strips the prompt, then branches on the mode string.
`board or 'Generic Board'` / `grade or 'N/A'` use Python truthiness. -/
def fallback_generate (prompt : String) (ai_mode : String := "emotionix")
    (board : Option String := none) (grade : Option String := none) : String :=
  let p := pyStrip prompt
  if ai_mode == "alphaStudy" then
    let pre := "(Alpha Study AI for " ++ pyOr board "Generic Board" ++ ", grade "
      ++ pyOr grade "N/A" ++ ") "
    pre ++ "\nSummary: " ++ strTake p 500
      ++ ".\nExplanation: Break it into simple steps and give an example."
  else if ai_mode == "alphaExam" then
    "Exam on: " ++ p ++ "\n1) Define the topic.\n2) Short question.\n3) Long question."
  else
    "I understand: " ++ p
      ++ "\nHere\x27s an empathetic answer: try reframing, examples, and a short action step."

/-- The fallback invocation of app.py line 199 as seen from the chat handler:
`fallback_generate(prompt, ai_mode=ai_mode, board=board, grade=grade)`. The
`emotion` value in scope at that call site is not passed to the generator;
this wrapper records that fact by taking it as an extra argument. -/
def fallbackWithEmotion (prompt : String) (emotion : Option String)
    (ai_mode : String) (board grade : Option String) : String :=
  fallback_generate prompt ai_mode board grade

/-- C3 counterexample: with the same prompt and mode, the fallback output for
emotion "sad" (and for "angry" and "happy") is character-for-character
identical to the output with no emotion, so no emotion-selected tone suffix
distinguishing "sad"/"angry"/"happy" from the absent-emotion output exists. -/
theorem fallback_emotion_suffix_counterexample :
    fallbackWithEmotion "hello" (some "sad") "emotionix" none none
      = fallbackWithEmotion "hello" none "emotionix" none none
    ∧ fallbackWithEmotion "hello" (some "angry") "emotionix" none none
      = fallbackWithEmotion "hello" none "emotionix" none none
    ∧ fallbackWithEmotion "hello" (some "happy") "emotionix" none none
      = fallbackWithEmotion "hello" none "emotionix" none none :=
  ⟨rfl, rfl, rfl⟩

/-- C3 (amended): the fallback generator never receives the emotion tag and
appends no tone suffix; for every prompt, mode, board and grade, the output
under any emotion equals the output with no emotion. -/
theorem fallback_ignores_emotion (prompt : String) (e₁ e₂ : Option String)
    (ai_mode : String) (board grade : Option String) :
    fallbackWithEmotion prompt e₁ ai_mode board grade
      = fallbackWithEmotion prompt e₂ ai_mode board grade := rfl

/-- C4 counterexample: two invocations with identical prompt, emotion and
mode but different `board` values produce different outputs, so fallback
generation is not a function of the triple (prompt, emotion, mode) alone. -/
theorem fallback_not_function_of_triple_counterexample :
    fallbackWithEmotion "x" none "alphaStudy" (some "CBSE") none
      ≠ fallbackWithEmotion "x" none "alphaStudy" (some "ICSE") none := by
  decide

/-- C4 (amended): fallback generation is a pure function of exactly the
quadruple (prompt text, mode tag, board, grade): invocations agreeing on
those four produce identical output regardless of the emotion tag. -/
theorem fallback_pure_in_quadruple (p₁ p₂ m₁ m₂ : String)
    (e₁ e₂ b₁ b₂ g₁ g₂ : Option String)
    (hp : p₁ = p₂) (hm : m₁ = m₂) (hb : b₁ = b₂) (hg : g₁ = g₂) :
    fallbackWithEmotion p₁ e₁ m₁ b₁ g₁ = fallbackWithEmotion p₂ e₂ m₂ b₂ g₂ := by
  subst hp hm hb hg
  rfl

/-- Witness for the amended C4 at concrete inputs. -/
theorem fallback_pure_in_quadruple_witness :
    fallbackWithEmotion "hi" (some "sad") "emotionix" none none
      = fallbackWithEmotion "hi" (some "happy") "emotionix" none none :=
  fallback_pure_in_quadruple "hi" "hi" "emotionix" "emotionix"
    (some "sad") (some "happy") none none none none rfl rfl rfl rfl

/-- A persisted `Message` row (app.py lines 43-48): chat reference, role tag
and text content. The store keeps rows in insertion order, which matches the
ascending `created_at` order used by every query in the handlers. -/
structure Msg where
  chat_id : String
  role : String
  content : String
deriving DecidableEq, Repr

/-- A persisted `Chat` row (app.py lines 36-41), as far as the chat endpoint
could observe it: identifier and owning user. -/
structure ChatRec where
  id : String
  user_id : Nat
deriving DecidableEq, Repr

/-- The database state visible to the JSON endpoints: the `Chat` table and
the `Message` table, each in creation order. -/
structure AppState where
  chats : List ChatRec
  messages : List Msg
deriving DecidableEq, Repr

/-- The JSON body of a POST to `/api/chat` (app.py lines 158-164): every
field is optional; an absent field is `none`. -/
structure ChatRequest where
  chat_id : Option String
  prompt : Option String
  emotion : Option String
  ai_mode : Option String
  board : Option String
  grade : Option String
deriving DecidableEq, Repr

/-- Python truthiness of the `chat_id` value at app.py line 166: `not chat_id`
holds for an absent field and for the empty string. -/
def chatIdFalsy : Option String → Bool
  | none => true
  | some s => s == ""

/-- The system prompt text built at app.py lines 175-177 from the mode,
emotion, board and grade fields. -/
def systemTextFor (ai_mode : String) (emotion board grade : Option String) : String :=
  let base := "You are " ++ ai_mode ++ ". Be helpful and adapt tone to user\x27s emotion: "
    ++ pyOr emotion "neutral" ++ "."
  if ai_mode == "alphaStudy" then
    base ++ " Student board: " ++ pyOr board "any" ++ ". Grade: " ++ pyOr grade "any" ++ "."
  else base

/-- Outcome of the `/api/chat` handler: either the 400 validation response
`{"error": ...}` or the 200 response `{"answer": ...}`. -/
inductive ApiChatResult where
  | badRequest (error : String)
  | ok (answer : String)
deriving DecidableEq, Repr

/-- HTTP status attached to each `/api/chat` outcome. -/
def statusOf : ApiChatResult → Nat
  | .badRequest _ => 400
  | .ok _ => 200

/-- The `error` field of the JSON body, when present. -/
def errorFieldOf : ApiChatResult → Option String
  | .badRequest e => some e
  | .ok _ => none

/-- The `answer` field of the JSON body, when present. -/
def answerFieldOf : ApiChatResult → Option String
  | .badRequest _ => none
  | .ok a => some a

/-- The `/api/chat` handler of app.py lines 155-206, after authentication.
`remote` abstracts the OpenAI dependency: `none` models an unset
`OPENAI_API_KEY` (line 197 then skips the call), and `some f` models a
configured key whose call returns `f assembled` (`none` for a failed call,
app.py lines 71-79). Steps, in source order: read fields (defaults as in
`data.get`), validate `chat_id`/`prompt` (line 166), append the user row
(lines 170-172), build the system text (175-177), fetch the rows of this
chat in creation order (180-181), assemble the sequence (183-194), take the
remote answer unless it is absent or empty, else the fallback (197-199),
append the assistant row (202-204), and return `{"answer": ...}`. -/
def api_chat (remote : Option (List RoleMsg → Option String)) (data : ChatRequest)
    (st : AppState) : ApiChatResult × AppState :=
  let prompt := pyStrip (data.prompt.getD "")
  let ai_mode := data.ai_mode.getD "emotionix"
  if chatIdFalsy data.chat_id || prompt == "" then
    (.badRequest "missing chat_id or prompt", st)
  else
    let cid := data.chat_id.getD ""
    let st₁ : AppState := { st with messages := st.messages ++ [⟨cid, "user", prompt⟩] }
    let system_text := systemTextFor ai_mode data.emotion data.board data.grade
    let prior := st₁.messages.filter (fun m => m.chat_id == cid)
    let assembled := assembleMessages (prior.map (fun m => ⟨m.role, m.content⟩))
      system_text prompt
    let remoteText := match remote with
      | none => none
      | some f => f assembled
    let ans := match remoteText with
      | some t => if t == "" then fallback_generate prompt ai_mode data.board data.grade else t
      | none => fallback_generate prompt ai_mode data.board data.grade
    let st₂ : AppState := { st₁ with messages := st₁.messages ++ [⟨cid, "assistant", ans⟩] }
    (.ok ans, st₂)

/-- C6: when `chat_id` is absent or empty, or `prompt` is absent or
whitespace-only, `/api/chat` answers with status 400, a JSON body carrying an
`error` field, and leaves the message store (and the whole database state)
unchanged. -/
theorem api_chat_missing_field_rejected (remote : Option (List RoleMsg → Option String))
    (data : ChatRequest) (st : AppState)
    (h : chatIdFalsy data.chat_id = true ∨ pyStrip (data.prompt.getD "") = "") :
    api_chat remote data st = (.badRequest "missing chat_id or prompt", st)
    ∧ statusOf (api_chat remote data st).1 = 400
    ∧ (errorFieldOf (api_chat remote data st).1).isSome = true
    ∧ (api_chat remote data st).2.messages = st.messages := by
  have hcond : (chatIdFalsy data.chat_id || pyStrip (data.prompt.getD "") == "") = true := by
    rcases h with h | h
    · simp [h]
    · simp [h]
  have heq : api_chat remote data st = (.badRequest "missing chat_id or prompt", st) := by
    unfold api_chat
    simp only [hcond, if_true]
  exact ⟨heq, by rw [heq]; rfl, by rw [heq]; rfl, by rw [heq]⟩

/-- Witness for C6: a request with an empty chat_id and a whitespace-only
prompt is rejected with 400 and the store is untouched. -/
theorem api_chat_missing_field_rejected_witness :
    api_chat none ⟨some "", some "   ", none, none, none, none⟩ ⟨[], []⟩
      = (.badRequest "missing chat_id or prompt", ⟨[], []⟩)
    ∧ statusOf (api_chat none ⟨some "", some "   ", none, none, none, none⟩ ⟨[], []⟩).1 = 400
    ∧ (errorFieldOf (api_chat none ⟨some "", some "   ", none, none, none, none⟩
        ⟨[], []⟩).1).isSome = true
    ∧ (api_chat none ⟨some "", some "   ", none, none, none, none⟩ ⟨[], []⟩).2.messages
      = ([] : List Msg) :=
  api_chat_missing_field_rejected none ⟨some "", some "   ", none, none, none, none⟩ ⟨[], []⟩
    (Or.inl (by decide))

/-- C9: for any non-empty `chat_id` and non-whitespace `prompt`, `/api/chat`
succeeds with status 200 and an `answer` field, appending exactly a user row
and an assistant row under that `chat_id` — for an arbitrary database state
`st`, with no hypothesis tying `chat_id` to `st.chats`: the handler performs
no existence or ownership check (the `Chat` table is left untouched and never
read), so a `chat_id` of a different user's chat, or of no chat at all, is
accepted all the same. -/
theorem api_chat_no_ownership_check (remote : Option (List RoleMsg → Option String))
    (data : ChatRequest) (st : AppState) (cid : String)
    (hcid : data.chat_id = some cid) (hne : cid ≠ "")
    (hp : pyStrip (data.prompt.getD "") ≠ "") :
    ∃ ans,
      api_chat remote data st
        = (.ok ans,
           { chats := st.chats,
             messages := st.messages
               ++ [⟨cid, "user", pyStrip (data.prompt.getD "")⟩] ++ [⟨cid, "assistant", ans⟩] })
      ∧ statusOf (api_chat remote data st).1 = 200
      ∧ answerFieldOf (api_chat remote data st).1 = some ans
      ∧ (api_chat remote data st).2.chats = st.chats := by
  have hfalsy : chatIdFalsy (some cid) = false := by
    simpa [chatIdFalsy] using hne
  have hpb : ((pyStrip (data.prompt.getD "")) == "") = false := by
    simpa using hp
  unfold api_chat
  simp only [hcid, hfalsy, hpb, Bool.or_self, Bool.false_or, Bool.or_false,
    Bool.false_eq_true, if_false, Option.getD_some]
  exact ⟨_, rfl, rfl, rfl, trivial⟩

/-- Witness for C9: a `chat_id` absent from an empty `Chat` table (so a chat
that does not exist) is accepted; the two rows are persisted and the reply is
a 200 with an answer. -/
theorem api_chat_no_ownership_check_witness :
    ∃ ans,
      api_chat none ⟨some "ghost-chat", some "hello", none, none, none, none⟩ ⟨[], []⟩
        = (.ok ans,
           { chats := [],
             messages := ([] : List Msg)
               ++ [⟨"ghost-chat", "user", pyStrip ((some "hello").getD "")⟩]
               ++ [⟨"ghost-chat", "assistant", ans⟩] })
      ∧ statusOf (api_chat none ⟨some "ghost-chat", some "hello", none, none, none, none⟩
          ⟨[], []⟩).1 = 200
      ∧ answerFieldOf (api_chat none ⟨some "ghost-chat", some "hello", none, none, none, none⟩
          ⟨[], []⟩).1 = some ans
      ∧ (api_chat none ⟨some "ghost-chat", some "hello", none, none, none, none⟩
          ⟨[], []⟩).2.chats = [] :=
  api_chat_no_ownership_check none ⟨some "ghost-chat", some "hello", none, none, none, none⟩
    ⟨[], []⟩ "ghost-chat" rfl (by decide) (by decide)

/-- Character-list version of "needle is an initial segment of the haystack". -/
def startsWithC : List Char → List Char → Bool
  | [], _ => true
  | _ :: _, [] => false
  | a :: as, b :: bs => a == b && startsWithC as bs

/-- Substring occurrence test on character lists: the needle occurs somewhere
in the haystack. -/
def containsSubC (needle : List Char) : List Char → Bool
  | [] => needle.isEmpty
  | c :: rest => startsWithC needle (c :: rest) || containsSubC needle rest

/-- Substring occurrence test on strings (Python `sub in s`). -/
def containsSub (s sub : String) : Bool :=
  containsSubC sub.data s.data

lemma startsWithC_append (n rest : List Char) : startsWithC n (n ++ rest) = true := by
  induction n with
  | nil => rfl
  | cons c t ih => simp [startsWithC, ih]

lemma containsSubC_here (n rest : List Char) : containsSubC n (n ++ rest) = true := by
  cases n with
  | nil =>
      cases rest with
      | nil => rfl
      | cons c t => simp [containsSubC, startsWithC]
  | cons c t =>
      have hs : startsWithC (c :: t) ((c :: t) ++ rest) = true := startsWithC_append _ _
      simp only [List.cons_append, containsSubC]
      rw [List.cons_append] at hs
      simp [hs]

lemma containsSubC_cons (n : List Char) (c : Char) (hay : List Char)
    (h : containsSubC n hay = true) : containsSubC n (c :: hay) = true := by
  simp [containsSubC, h]

lemma containsSubC_of_append (pre n post : List Char) :
    containsSubC n (pre ++ (n ++ post)) = true := by
  induction pre with
  | nil => simpa using containsSubC_here n post
  | cons c t ih => exact containsSubC_cons _ _ _ ih

/-- Lower-case an ASCII letter, modelling Python `str.lower()` on the ASCII
range in which the handler compares file names. -/
def lowerChar (c : Char) : Char :=
  if 65 ≤ c.toNat && c.toNat ≤ 90 then Char.ofNat (c.toNat + 32) else c

/-- Python `str.lower()` restricted to ASCII. -/
def toLowerAscii (s : String) : String := ⟨s.data.map lowerChar⟩

/-- Character-list test that `needle` is a final segment of `hay`. -/
def endsWithList (hay needle : List Char) : Bool :=
  decide (needle.length ≤ hay.length) && hay.drop (hay.length - needle.length) == needle

/-- An uploaded file, as far as `/api/generate_exam` can observe it:
its name, the per-page extraction results PyPDF2 would return for it
(`p.extract_text()` is `None` for a page with no extractable text), and its
raw content as text. The handler never reads `content`. -/
structure UploadedFile where
  filename : String
  pages : List (Option String)
  content : String
deriving DecidableEq, Repr

/-- Page concatenation of app.py lines 221-224:
`"\n\n".join(p.extract_text() or "" for p in reader.pages)`, empty string for
a page yielding no text. -/
def extract_pages_text (pages : List (Option String)) : String :=
  String.intercalate "\n\n" (pages.map (fun p => p.getD ""))

/-- Source-text selection of app.py lines 214-224: start from the `text` form
field; if a file was uploaded and its lower-cased name ends in ".pdf",
replace the text by the concatenated page extractions. Any other uploaded
file leaves `text` as it was — no branch reads the file's bytes. -/
def extractSourceText (formText : String) (file : Option UploadedFile) : String :=
  match file with
  | none => formText
  | some f =>
      if endsWithList (toLowerAscii f.filename).data ".pdf".data then
        extract_pages_text f.pages
      else formText

/-- Truncation `text[:4000]` of app.py line 229. -/
def truncate4000 (t : String) : String := strTake t 4000

/-- The prompt string built at app.py line 229: `f"Create an exam paper on
'{topic}' with {num_q} questions from the following material:\n\n{text[:4000]}"`. -/
def buildExamPrompt (topic : String) (num_q : Int) (text : String) : String :=
  "Create an exam paper on \x27" ++ topic ++ "\x27 with " ++ toString num_q
    ++ " questions from the following material:\n\n" ++ truncate4000 text

/-- The system message used for the remote exam call (app.py line 233). -/
def examSystemText : String :=
  "You are Alpha Exam AI that generates clear exam papers with marks and answer key."

/-- Tail of `validDigits`: every remaining character is a digit, except that
a single underscore may stand between two digits (Python integer-literal
grouping accepted by `int()`). -/
def validTail : List Char → Bool
  | [] => true
  | c :: cs =>
      if c == '_' then
        match cs with
        | [] => false
        | d :: ds => d.isDigit && validTail ds
      else c.isDigit && validTail cs

/-- A non-empty digit run as accepted by Python `int()` after sign removal. -/
def validDigits : List Char → Bool
  | [] => false
  | c :: cs => c.isDigit && validTail cs

/-- Numeric value of a digit run, ignoring underscores. -/
def digitsVal (cs : List Char) : Nat :=
  (cs.filter (fun c => !(c == '_'))).foldl (fun n c => n * 10 + (c.toNat - 48)) 0

/-- Python `int(s)` on a string: strip whitespace, allow one optional sign,
then require a valid decimal digit run; anything else raises `ValueError`,
modelled as `none`. -/
def pyInt (s : String) : Option Int :=
  let t := (pyStrip s).data
  match t with
  | '+' :: cs => if validDigits cs then some (digitsVal cs : Int) else none
  | '-' :: cs => if validDigits cs then some (-(digitsVal cs : Int)) else none
  | cs => if validDigits cs then some (digitsVal cs : Int) else none

/-- The conversion `int(request.form.get("num_questions") or 10)` of app.py
line 213: an absent or empty field falls back to the integer 10; any other
string goes through `int()`, whose `ValueError` is not caught by the handler. -/
def parse_num_questions (field : Option String) : Except String Int :=
  match field with
  | none => .ok 10
  | some s =>
      if s == "" then .ok 10
      else
        match pyInt s with
        | some n => .ok n
        | none => .error "ValueError"

/-- The form fields of a POST to `/api/generate_exam` (app.py lines 212-214). -/
structure ExamForm where
  topic : Option String
  num_questions : Option String
  text : Option String
deriving DecidableEq, Repr

/-- Outcome of `/api/generate_exam` when no exception escapes: the 400
response `{"error": "no text or pdf provided"}` or the 200 response
`{"exam": ...}`. -/
inductive ExamOutcome where
  | badRequest (error : String)
  | okExam (exam : String)
deriving DecidableEq, Repr

/-- HTTP status of an `/api/generate_exam` outcome. -/
def statusOfExam : ExamOutcome → Nat
  | .badRequest _ => 400
  | .okExam _ => 200

/-- The fallback exam body of app.py line 237:
`fallback_generate(topic, ai_mode="alphaExam") + "\n\nSource excerpt:\n" + text[:800]`. -/
def fallbackExam (topic text : String) : String :=
  fallback_generate topic "alphaExam" none none ++ "\n\nSource excerpt:\n" ++ strTake text 800

/-- The `/api/generate_exam` handler of app.py lines 209-238, after
authentication. The `Except` layer models Python exceptions escaping the
handler: `.error` is an uncaught exception (Flask then answers 500), never a
JSON response. `remote` abstracts the OpenAI dependency as in `api_chat`.
Steps, in source order: default the topic (`or "Exam"`), convert
`num_questions` with the unguarded `int()` (line 213), read the `text` field,
override it with PDF page text when the uploaded file name says PDF
(217-224), reject whitespace-only text with the 400 response (226-227),
build the prompt (229), and answer with the remote result or the fallback
exam body (231-238). -/
def api_generate_exam (remote : Option (List RoleMsg → Option String)) (form : ExamForm)
    (file : Option UploadedFile) : Except String ExamOutcome :=
  let topic := pyOr form.topic "Exam"
  match parse_num_questions form.num_questions with
  | .error e => .error e
  | .ok num_q =>
      let text := extractSourceText (form.text.getD "") file
      if pyStrip text == "" then .ok (.badRequest "no text or pdf provided")
      else
        let prompt := buildExamPrompt topic num_q text
        let remoteText := match remote with
          | none => none
          | some f => f [⟨"system", examSystemText⟩, ⟨"user", prompt⟩]
        let answer := match remoteText with
          | some a => if a == "" then fallbackExam topic text else a
          | none => fallbackExam topic text
        .ok (.okExam answer)

/-- C10: when `num_questions` is present, non-empty and not a valid Python
integer literal, the unguarded `int()` at app.py line 213 raises `ValueError`,
which nothing in the handler catches: the request ends in an uncaught
exception, not in the 400 validation response. -/
theorem exam_bad_num_questions_uncaught (remote : Option (List RoleMsg → Option String))
    (form : ExamForm) (file : Option UploadedFile) (s : String)
    (hf : form.num_questions = some s) (hne : s ≠ "") (hbad : pyInt s = none) :
    api_generate_exam remote form file = .error "ValueError"
    ∧ ∀ out, api_generate_exam remote form file ≠ .ok out := by
  have hsb : (s == "") = false := by simpa using hne
  have heq : api_generate_exam remote form file = .error "ValueError" := by
    unfold api_generate_exam parse_num_questions
    rw [hf]
    simp only [hsb, Bool.false_eq_true, if_false, hbad]
  exact ⟨heq, fun out hout => by rw [heq] at hout; exact Except.noConfusion hout⟩

/-- Witness for C10: `num_questions = "abc"` ends in an uncaught `ValueError`. -/
theorem exam_bad_num_questions_uncaught_witness :
    api_generate_exam none ⟨some "T", some "abc", some "material"⟩ none = .error "ValueError" :=
  (exam_bad_num_questions_uncaught none ⟨some "T", some "abc", some "material"⟩ none "abc"
    rfl (by decide) (by decide)).1

/-- C8 counterexample: a non-PDF upload (here "notes.txt" with decodable
content "hello world") is ignored entirely — its bytes are never decoded and
never become the source material: with an empty `text` field the source text
stays empty and the handler returns the 400 "no content" response instead of
using the file's content. -/
theorem nonpdf_upload_ignored_counterexample :
    extractSourceText "" (some ⟨"notes.txt", [], "hello world"⟩) = ""
    ∧ extractSourceText "form text" (some ⟨"notes.txt", [], "hello world"⟩) = "form text"
    ∧ api_generate_exam none ⟨none, none, none⟩ (some ⟨"notes.txt", [], "hello world"⟩)
        = .ok (.badRequest "no text or pdf provided") := by
  refine ⟨by decide, by decide, rfl⟩

/-- C8 (amended): for every uploaded file whose lower-cased name does not end
in ".pdf", the handler attempts no decoding of the file at all: the source
material is exactly the `text` form field, whatever the file's content. -/
theorem nonpdf_upload_ignored (formText : String) (f : UploadedFile)
    (h : endsWithList (toLowerAscii f.filename).data ".pdf".data = false) :
    extractSourceText formText (some f) = formText := by
  unfold extractSourceText
  simp only [h, Bool.false_eq_true, if_false]

/-- Witness for the amended C8 at a concrete non-PDF upload. -/
theorem nonpdf_upload_ignored_witness :
    extractSourceText "keep me" (some ⟨"Data.TXT", [some "page"], "raw bytes"⟩) = "keep me" :=
  nonpdf_upload_ignored "keep me" ⟨"Data.TXT", [some "page"], "raw bytes"⟩ (by decide)

/-- C7: the text embedded into the exam prompt is `truncate4000 text`, whose
characters are exactly the first 4000 of the input: inputs of length at most
4000 pass through unchanged, longer inputs are cut to exactly 4000
characters. -/
theorem truncation_spec (t : String) :
    (truncate4000 t).data = t.data.take 4000
    ∧ (t.length ≤ 4000 → truncate4000 t = t)
    ∧ (4000 < t.length → (truncate4000 t).length = 4000)
    ∧ (∀ topic : String, ∀ num_q : Int, buildExamPrompt topic num_q t
        = "Create an exam paper on \x27" ++ topic ++ "\x27 with " ++ toString num_q
          ++ " questions from the following material:\n\n" ++ truncate4000 t) := by
  refine ⟨rfl, ?_, ?_, fun _ _ => rfl⟩
  · intro h
    show (⟨t.data.take 4000⟩ : String) = t
    rw [List.take_of_length_le h]
  · intro h
    show (t.data.take 4000).length = 4000
    rw [List.length_take]
    have ht : 4000 < t.data.length := h
    omega

/-- A 4001-character string, exceeding the prompt budget by one. -/
def longText : String := ⟨List.replicate 4001 'a'⟩

/-- Witness for C7: a short string is embedded unchanged and the
4001-character string is cut to exactly 4000. -/
theorem truncation_spec_witness :
    truncate4000 "short" = "short" ∧ (truncate4000 longText).length = 4000 :=
  ⟨(truncation_spec "short").2.1 (by decide),
   (truncation_spec longText).2.2.1 (by
     show 4000 < (List.replicate 4001 'a').length
     rw [List.length_replicate]
     omega)⟩

lemma containsSub_of_data_eq (s pre sub post : String)
    (h : s.data = pre.data ++ (sub.data ++ post.data)) : containsSub s sub = true := by
  unfold containsSub
  rw [h]
  exact containsSubC_of_append _ _ _

/-- C5 counterexample: at a concrete topic, count and source text the built
prompt is the literal template string, which mentions no 20%/30%/50%
distribution policy and carries no marks/answer-key instruction — neither
does the separate exam system message mention any distribution. -/
theorem exam_prompt_no_policy_counterexample :
    buildExamPrompt "Algebra" 10 "Some material."
      = "Create an exam paper on \x27Algebra\x27 with 10 questions from the following material:\n\nSome material."
    ∧ containsSub (buildExamPrompt "Algebra" 10 "Some material.") "20%" = false
    ∧ containsSub (buildExamPrompt "Algebra" 10 "Some material.") "30%" = false
    ∧ containsSub (buildExamPrompt "Algebra" 10 "Some material.") "50%" = false
    ∧ containsSub (buildExamPrompt "Algebra" 10 "Some material.") "multiple-choice" = false
    ∧ containsSub (buildExamPrompt "Algebra" 10 "Some material.") "answer key" = false
    ∧ containsSub (buildExamPrompt "Algebra" 10 "Some material.") "marks" = false
    ∧ containsSub examSystemText "20%" = false := by
  refine ⟨by decide, by decide, by decide, by decide, by decide, by decide, by decide, by decide⟩

/-- C5 (amended): for every topic, question count and source text, the exam
prompt builder produces the single deterministic template string containing
the topic label, the question count and the truncated source text; the
distribution policy and the marks/answer-key instruction are not part of it
(the marks/answer-key wording appears only in the separate system message,
`examSystemText`). -/
theorem exam_prompt_contents (topic : String) (num_q : Int) (text : String) :
    containsSub (buildExamPrompt topic num_q text) topic = true
    ∧ containsSub (buildExamPrompt topic num_q text) (toString num_q) = true
    ∧ containsSub (buildExamPrompt topic num_q text) (truncate4000 text) = true
    ∧ containsSub examSystemText "marks" = true
    ∧ containsSub examSystemText "answer key" = true := by
  refine ⟨?_, ?_, ?_, by decide, by decide⟩
  · exact containsSub_of_data_eq _ "Create an exam paper on \x27" topic
      ("\x27 with " ++ toString num_q ++ " questions from the following material:\n\n"
        ++ truncate4000 text)
      (by simp [buildExamPrompt])
  · exact containsSub_of_data_eq _
      ("Create an exam paper on \x27" ++ topic ++ "\x27 with ") (toString num_q)
      (" questions from the following material:\n\n" ++ truncate4000 text)
      (by simp [buildExamPrompt])
  · exact containsSub_of_data_eq _
      ("Create an exam paper on \x27" ++ topic ++ "\x27 with " ++ toString num_q
        ++ " questions from the following material:\n\n")
      (truncate4000 text) ""
      (by simp [buildExamPrompt])
